import Mathlib

set_option maxRecDepth 100000

/-!
Verification development for the telephony-to-AI audio bridge
(`src/index.js` of `1Lvlup/ai-agent-server`).

The per-call session (the `wss.on('connection')` closure) is shallowly
embedded as a pure step function over an explicit session state, with the
asynchronously arriving WebSocket messages of both peers modelled as a list
of events processed in arrival order.  JavaScript 32-bit integer bitwise
semantics are modelled explicitly over `Int`; machine arithmetic appears as
explicit `% 2^32` two's-complement conversions.
-/

/-! ## JavaScript 32-bit integer operations

JS bitwise operators coerce their operands with `ToInt32`/`ToUint32`
(two's complement, 32 bits) and return a signed 32-bit result. -/

/-- Interpret an integer as a signed 32-bit value (JS `ToInt32`). -/
def toInt32 (n : Int) : Int :=
  let m := n % 4294967296
  if m < 2147483648 then m else m - 4294967296

/-- Interpret an integer as an unsigned 32-bit value (JS `ToUint32`). -/
def toUint32 (n : Int) : Nat :=
  (n % 4294967296).toNat

/-- JS bitwise AND (`a & b`). -/
def jsAnd (a b : Int) : Int :=
  toInt32 (Int.ofNat (Nat.land (toUint32 a) (toUint32 b)))

/-- JS bitwise OR (`a | b`). -/
def jsOr (a b : Int) : Int :=
  toInt32 (Int.ofNat (Nat.lor (toUint32 a) (toUint32 b)))

/-- JS bitwise NOT (`~a`). -/
def jsNot (a : Int) : Int :=
  toInt32 (Int.ofNat (Nat.xor (toUint32 a) 4294967295))

/-- JS arithmetic right shift (`a >> b`): floor division of the signed
32-bit value by a power of two; the shift count is taken mod 32. -/
def jsShr (a : Int) (b : Nat) : Int :=
  Int.fdiv (toInt32 a) (2 ^ (b % 32))

/-- JS left shift (`a << b`). -/
def jsShl (a : Int) (b : Nat) : Int :=
  toInt32 (toInt32 a * 2 ^ (b % 32))

/-! ## Codec transcoder (`linearToMuLaw` and the downsampling loop) -/

/-- The exponent-search loop of `linearToMuLaw`:
`for (let mask = 0x4000; (s & mask) === 0 && exponent > 0; mask >>= 1) exponent--;`
with `exponent` starting at 7. -/
def muLawExpLoop (s : Int) (mask : Int) : Nat → Nat
  | 0 => 0
  | e + 1 => if jsAnd s mask = 0 then muLawExpLoop s (jsShr mask 1) e else e + 1

/-- `linearToMuLaw` from `src/index.js` (lines 14-24), translated with JS
32-bit integer semantics.  Note the mantissa shift is `4` when the exponent
is `0` (the source's `(exponent === 0) ? 4 : (exponent + 3)`). -/
def linearToMuLaw (sample : Int) : Int :=
  let BIAS : Int := 0x84
  let CLIP : Int := 32635
  let sign : Int := jsAnd (jsShr sample 8) 0x80
  let s1 : Int := if sign ≠ 0 then -sample else sample
  let s2 : Int := if s1 > CLIP then CLIP else s1
  let s3 : Int := s2 + BIAS
  let exponent : Nat := muLawExpLoop s3 0x4000 7
  let mantissa : Int := jsAnd (jsShr s3 (if exponent = 0 then 4 else exponent + 3)) 0x0F
  jsAnd (jsNot (jsOr sign (jsOr (jsShl (Int.ofNat exponent) 4) mantissa))) 0xFF

/-- Segment (exponent) of a biased magnitude in the standard μ-law
reference: the index of the first segment end (`0xFF, 0x1FF, ..., 0x3FFF`)
that is not exceeded, i.e. `floor(log2 biased) - 7` for `biased ≥ 0x80`. -/
def muLawSegment (biased : Nat) : Nat :=
  if biased ≤ 0xFF then 0
  else if biased ≤ 0x1FF then 1
  else if biased ≤ 0x3FF then 2
  else if biased ≤ 0x7FF then 3
  else if biased ≤ 0xFFF then 4
  else if biased ≤ 0x1FFF then 5
  else if biased ≤ 0x3FFF then 6
  else 7

/-- Modelled from the spec: the standard μ-law companding reference
(bias `0x84`, clip `32635`, logarithmic exponent/mantissa split, bit
inversion).  In the standard encoder the mantissa of a biased magnitude
with exponent `e` is `(biased >> (e + 3)) & 0x0F` for every segment,
including segment 0. -/
def muLawReference (sample : Int) : Int :=
  let sign : Nat := if sample < 0 then 0x80 else 0
  let mag : Int := if sample < 0 then -sample else sample
  let clipped : Int := if mag > 32635 then 32635 else mag
  let biased : Nat := (clipped + 0x84).toNat
  let exponent : Nat := muLawSegment biased
  let mantissa : Nat := (biased >>> (exponent + 3)) % 16
  Int.ofNat (0xFF - (sign + exponent * 16 + mantissa))

/-- The `response.audio.delta` downsampling loop (`src/index.js` lines
231-236): output length `floor(L/3)`, keeping every third sample
(`samples[3*j]`) and μ-law encoding each kept sample. -/
def downsampleAndEncode (samples : List Int) : List Int :=
  (List.range (samples.length / 3)).map fun j => linearToMuLaw (samples.getD (3 * j) 0)

/-! ## JSON values and a model of `JSON.parse`

The bridge calls `JSON.parse` on the text captured after the `BOOKING:`
marker.  JSON values are modelled as a Lean inductive; number values are
kept as their source lexemes (no claim inspects a numeric value, and this
avoids modelling IEEE doubles).  Object assignment follows JS semantics:
a duplicate key keeps its first position and takes the later value. -/

inductive Json where
  | jnull
  | jbool (b : Bool)
  | jnum (lexeme : String)
  | jstr (s : String)
  | jarr (elements : List Json)
  | jobj (fields : List (String × Json))

/-- JSON whitespace accepted by `JSON.parse` between tokens. -/
def jsonWsChar (c : Char) : Bool :=
  c = ' ' || c = '\t' || c = '\n' || c = '\r'

def skipWs (cs : List Char) : List Char :=
  cs.dropWhile jsonWsChar

def isDigitCh (c : Char) : Bool :=
  '0' ≤ c && c ≤ '9'

def isHexCh (c : Char) : Bool :=
  isDigitCh c || ('a' ≤ c && c ≤ 'f') || ('A' ≤ c && c ≤ 'F')

def hexVal (c : Char) : Nat :=
  if isDigitCh c then c.toNat - '0'.toNat
  else if 'a' ≤ c && c ≤ 'f' then c.toNat - 'a'.toNat + 10
  else c.toNat - 'A'.toNat + 10

/-- Single-character string escapes of JSON. -/
def escapeChar (c : Char) : Option Char :=
  if c = '"' then some '"'
  else if c = '\\' then some '\\'
  else if c = '/' then some '/'
  else if c = 'b' then some (Char.ofNat 8)
  else if c = 'f' then some (Char.ofNat 12)
  else if c = 'n' then some '\n'
  else if c = 'r' then some '\r'
  else if c = 't' then some '\t'
  else none

/-- Parse the remainder of a JSON string literal (opening quote already
consumed), returning the decoded string and the rest of the input.
Unescaped control characters are rejected, as in `JSON.parse`. -/
def parseStringLit (acc : List Char) : List Char → Option (String × List Char)
  | [] => none
  | c :: rest =>
    if c = '"' then some (String.mk acc.reverse, rest)
    else if c = '\\' then
      match rest with
      | 'u' :: h1 :: h2 :: h3 :: h4 :: rest2 =>
        if isHexCh h1 && isHexCh h2 && isHexCh h3 && isHexCh h4 then
          parseStringLit
            (Char.ofNat (((hexVal h1 * 16 + hexVal h2) * 16 + hexVal h3) * 16 + hexVal h4) :: acc)
            rest2
        else none
      | e :: rest2 =>
        match escapeChar e with
        | some ec => parseStringLit (ec :: acc) rest2
        | none => none
      | [] => none
    else if c.toNat < 32 then none
    else parseStringLit (c :: acc) rest

/-- Fractional part of a JSON number (empty if absent). -/
def parseFrac (cs : List Char) : Option (List Char × List Char) :=
  match cs with
  | '.' :: rest =>
    let ds := rest.takeWhile isDigitCh
    if ds = [] then none else some ('.' :: ds, rest.dropWhile isDigitCh)
  | _ => some ([], cs)

/-- Exponent part of a JSON number (empty if absent). -/
def parseExpPart (cs : List Char) : Option (List Char × List Char) :=
  match cs with
  | [] => some ([], [])
  | c :: rest =>
    if c = 'e' || c = 'E' then
      let (sgn, rest2) :=
        match rest with
        | '+' :: r => (['+'], r)
        | '-' :: r => (['-'], r)
        | _ => (([] : List Char), rest)
      let ds := rest2.takeWhile isDigitCh
      if ds = [] then none else some (c :: (sgn ++ ds), rest2.dropWhile isDigitCh)
    else some ([], cs)

/-- Integer part of a JSON number: `0`, or a nonzero digit followed by
digits (`JSON.parse` rejects leading zeros). -/
def parseIntPart (cs : List Char) : Option (List Char × List Char) :=
  match cs with
  | '0' :: rest => some (['0'], rest)
  | c :: rest =>
    if '1' ≤ c && c ≤ '9' then some (c :: rest.takeWhile isDigitCh, rest.dropWhile isDigitCh)
    else none
  | [] => none

/-- A JSON number token, kept as its lexeme. -/
def parseNumber (cs : List Char) : Option (Json × List Char) :=
  let (neg, cs1) :=
    match cs with
    | '-' :: rest => (true, rest)
    | _ => (false, cs)
  match parseIntPart cs1 with
  | none => none
  | some (ip, cs2) =>
    match parseFrac cs2 with
    | none => none
    | some (fp, cs3) =>
      match parseExpPart cs3 with
      | none => none
      | some (ep, cs4) =>
        some (Json.jnum (String.mk ((if neg then ['-'] else []) ++ ip ++ fp ++ ep)), cs4)

/-- Pattern match for a literal character sequence. -/
def startsWith : List Char → List Char → Bool
  | [], _ => true
  | _ :: _, [] => false
  | p :: ps, c :: cs => p = c && startsWith ps cs

/-- JS object assignment: a repeated key keeps its first position and takes
the later value. -/
def objInsert (k : String) (v : Json) : List (String × Json) → List (String × Json)
  | [] => [(k, v)]
  | (k0, v0) :: rest => if k0 = k then (k0, v) :: rest else (k0, v0) :: objInsert k v rest

mutual

/-- One JSON value, by recursive descent; `fuel` bounds the recursion
depth (soundness does not depend on it, and `jsonParse` supplies more fuel
than any input can consume). -/
def parseVal (fuel : Nat) (cs : List Char) : Option (Json × List Char) :=
match fuel with
| 0 => none
| fuel + 1 =>
  match skipWs cs with
  | [] => none
  | c :: rest =>
    if c = '\x7b' then
      match skipWs rest with
      | '\x7d' :: rest2 => some (Json.jobj [], rest2)
      | cs2 => parseMembers fuel cs2 []
    else if c = '[' then
      match skipWs rest with
      | ']' :: rest2 => some (Json.jarr [], rest2)
      | cs2 => parseElements fuel cs2 []
    else if c = '"' then
      match parseStringLit [] rest with
      | some (s, rest2) => some (Json.jstr s, rest2)
      | none => none
    else if startsWith "true".data (c :: rest) then some (Json.jbool true, (c :: rest).drop 4)
    else if startsWith "false".data (c :: rest) then some (Json.jbool false, (c :: rest).drop 5)
    else if startsWith "null".data (c :: rest) then some (Json.jnull, (c :: rest).drop 4)
    else parseNumber (c :: rest)

/-- Members of a JSON object after the opening brace (at least one member). -/
def parseMembers (fuel : Nat) (cs : List Char) (acc : List (String × Json)) :
    Option (Json × List Char) :=
match fuel with
| 0 => none
| fuel + 1 =>
  match skipWs cs with
  | '"' :: rest =>
    match parseStringLit [] rest with
    | none => none
    | some (key, rest2) =>
      match skipWs rest2 with
      | ':' :: rest3 =>
        match parseVal fuel rest3 with
        | none => none
        | some (v, rest4) =>
          match skipWs rest4 with
          | ',' :: rest5 => parseMembers fuel rest5 (objInsert key v acc)
          | '\x7d' :: rest5 => some (Json.jobj (objInsert key v acc), rest5)
          | _ => none
      | _ => none
  | _ => none

/-- Elements of a JSON array after the opening bracket (at least one element). -/
def parseElements (fuel : Nat) (cs : List Char) (acc : List Json) :
    Option (Json × List Char) :=
match fuel with
| 0 => none
| fuel + 1 =>
  match parseVal fuel cs with
  | none => none
  | some (v, rest) =>
    match skipWs rest with
    | ',' :: rest2 => parseElements fuel rest2 (acc ++ [v])
    | ']' :: rest2 => some (Json.jarr (acc ++ [v]), rest2)
    | _ => none

end

/-- Model of `JSON.parse`: one value spanning the whole input (modulo
surrounding whitespace), otherwise failure. -/
def jsonParse (s : String) : Option Json :=
  match parseVal (2 * s.data.length + 2) s.data with
  | some (v, rest) => if skipWs rest = [] then some v else none
  | none => none

/-! ## The `BOOKING:` record extractor

`src/index.js` line 201: `lastTextChunk.match(/BOOKING:\s*(\{.*\})/)` and,
on a match, `JSON.parse(m[1])`.  The regex is modelled exactly: leftmost
match of the literal marker, greedy `\s*` (which, followed by the mandatory
opening brace — not a whitespace character — never backtracks), then the
capture group from that brace to the last closing brace reachable by `.`
(which does not cross line terminators). -/

/-- Characters matched by JS `\s`. -/
def jsWhitespace (c : Char) : Bool :=
  c = ' ' || c = '\t' || c = '\n' || c = '\x0b' || c = '\x0c' || c = '\r' ||
  c = '\u00a0' || c = '\u1680' || ('\u2000' ≤ c && c ≤ '\u200a') ||
  c = '\u2028' || c = '\u2029' || c = '\u202f' || c = '\u205f' || c = '\u3000' ||
  c = '\ufeff'

/-- Characters matched by JS `.` without the `s` flag (anything but a line
terminator). -/
def jsDot (c : Char) : Bool :=
  !(c = '\n' || c = '\r' || c = '\u2028' || c = '\u2029')

/-- Index of the last closing brace in a segment, if any (the greedy
`.*\}` backtracks to the last `\x7d`). -/
def lastBraceIdx : List Char → Option Nat
  | [] => none
  | c :: rest =>
    match lastBraceIdx rest with
    | some i => some (i + 1)
    | none => if c = '\x7d' then some 0 else none

/-- Attempt the regex `BOOKING:\s*(\{.*\})` anchored at the head of the
input, returning the capture group. -/
def matchBookingAt (cs : List Char) : Option (List Char) :=
  if startsWith "BOOKING:".data cs then
    match (cs.drop 8).dropWhile jsWhitespace with
    | c :: rest =>
      if c = '\x7b' then
        let seg := rest.takeWhile jsDot
        match lastBraceIdx seg with
        | some i => some ('\x7b' :: seg.take (i + 1))
        | none => none
      else none
    | [] => none
  else none

/-- Leftmost match of `BOOKING:\s*(\{.*\})`, returning the capture group. -/
def bookingSearch : List Char → Option (List Char)
  | [] => none
  | c :: rest =>
    match matchBookingAt (c :: rest) with
    | some g => some g
    | none => bookingSearch rest

/-- The record extractor of the `response.done` handler: regex match, then
`JSON.parse` of the captured group.  `none` covers both a missing marker
and a parse failure (in the source the latter is caught and only logged;
no record is delivered in either case). -/
def extractBooking (text : String) : Option Json :=
  match bookingSearch text.data with
  | some g => jsonParse (String.mk g)
  | none => none

/-! ## Per-call session state machine

One WebSocket pair per call (`wss.on('connection')`).  The closure-local
mutable variables become an explicit state record; the handlers of both
sockets (plus the 200 ms greeting timer) become a step function from an
inbound event to a new state and the list of messages sent.  Logging and
the HTTP delivery result (fire-and-forget, observed only for logging) have
no effect on state and are not modelled. -/

/-- Default of the `BUSINESS_NAME` env var (`src/index.js` line 10). -/
def BUSINESS_NAME : String := "\x7bBusinessName\x7d"

/-- The greeting instruction issued 200 ms after the AI socket opens
(`src/index.js` lines 171-174). -/
def GREETING : String :=
  "Thanks for calling " ++ BUSINESS_NAME ++
    ". I can help get you scheduled. May I have your full name?"

/-- Inbound events of one session, in arrival order: the greeting timer,
the AI-socket messages, and the telephony-socket messages.  An
`aiAudioDelta` carries the decoded 16-bit samples of its (truthy) base64
payload; `twStart` carries the stream identifier the handler assigns
(`data.start?.streamSid || data.streamSid || data.start?.callSid`, which
the telephony protocol always provides on stream start). -/
inductive Event where
  | greetTimeout
  | aiCreated
  | aiTextDelta (delta : String)
  | aiDone
  | aiCommitted
  | aiAudioDelta (samples : List Int)
  | aiClosed
  | twStart (sid : String)
  | twMedia (payload : String)
  | twStop
  | twClose
  deriving DecidableEq

/-- Messages the session sends, in emission order.  `twilioBeep` is the
synthesized connectivity tone of the `start` handler (its sine-wave
content is floating-point and irrelevant to every claim, so the payload is
abstracted); `closeAI` is a call of `aiWs.close()`. -/
inductive Output where
  | responseCreate (instructions : Option String)
  | inputAppend (audio : String)
  | twilioMedia (payload : List Int)
  | twilioMark
  | twilioClear
  | twilioBeep
  | deliverBooking (record : Json)
  | closeAI

/-- The closure-local state of one session (`src/index.js` lines 137-140),
plus the open/closed state of the two sockets.  `aiOpen` starts `true`
(the connecting phase of the AI socket is elided; no claim depends on
it). -/
structure SessionState where
  streamSid : Option String
  aiBusy : Bool
  pendingPrompt : Option String
  lastTextChunk : String
  aiOpen : Bool
  twOpen : Bool
  deriving DecidableEq

def initialState : SessionState :=
  { streamSid := none, aiBusy := false, pendingPrompt := none,
    lastTextChunk := "", aiOpen := true, twOpen := true }

/-- JS truthiness of a nullable string (`null` and `""` are falsy). -/
def jsTruthy : Option String → Bool
  | none => false
  | some s => !(s == "")

/-- `sendReply` (`src/index.js` lines 142-147): a `response.create`
message, with `instructions` present exactly when the argument is truthy. -/
def sendReply (textOrNull : Option String) : Output :=
  Output.responseCreate (if jsTruthy textOrNull then textOrNull else none)

/-- One handler invocation.  Clause by clause this is the source's event
dispatch:
* `greetTimeout` — lines 171-174: `if (!aiBusy) sendReply(greet); else pendingPrompt = greet;`
* `aiCreated` — line 192: `aiBusy = true;`
* `aiTextDelta` — line 195: `lastTextChunk += evt.delta;`
* `aiDone` — lines 197-218: clear `aiBusy`, extract/deliver the booking,
  clear `lastTextChunk`, then `if (pendingPrompt) ... sendReply(txt);`
* `aiCommitted` — line 222: `if (!aiBusy) sendReply(null); else pendingPrompt = null;`
* `aiAudioDelta` — lines 226-239: guarded by `streamSid` truthiness, send
  the downsampled μ-law media frame and a mark frame
* `aiClosed` — line 249: the close handler only logs
* `twStart` — lines 256-263: record the stream id, then clear + beep + mark
* `twMedia` — lines 266-270: forward to the AI socket if it is open
* `twStop`/`twClose` — lines 272-281: `try { aiWs.close(); } catch {}` (a
  close of an already-closed socket is a no-op). -/
def step (st : SessionState) (ev : Event) : SessionState × List Output :=
  match ev with
  | Event.greetTimeout =>
    if st.aiBusy then ({ st with pendingPrompt := some GREETING }, [])
    else (st, [sendReply (some GREETING)])
  | Event.aiCreated => ({ st with aiBusy := true }, [])
  | Event.aiTextDelta d => ({ st with lastTextChunk := st.lastTextChunk ++ d }, [])
  | Event.aiDone =>
    let delivered :=
      match extractBooking st.lastTextChunk with
      | some record => [Output.deliverBooking record]
      | none => []
    let st1 := { st with aiBusy := false, lastTextChunk := "" }
    if jsTruthy st.pendingPrompt then
      ({ st1 with pendingPrompt := none }, delivered ++ [sendReply st.pendingPrompt])
    else (st1, delivered)
  | Event.aiCommitted =>
    if st.aiBusy then ({ st with pendingPrompt := none }, [])
    else (st, [sendReply none])
  | Event.aiAudioDelta samples =>
    if jsTruthy st.streamSid then
      (st, [Output.twilioMedia (downsampleAndEncode samples), Output.twilioMark])
    else (st, [])
  | Event.aiClosed => ({ st with aiOpen := false }, [])
  | Event.twStart sid =>
    ({ st with streamSid := some sid },
      [Output.twilioClear, Output.twilioBeep, Output.twilioMark])
  | Event.twMedia payload =>
    if st.aiOpen then (st, [Output.inputAppend payload]) else (st, [])
  | Event.twStop => ({ st with aiOpen := false }, [Output.closeAI])
  | Event.twClose => ({ st with aiOpen := false, twOpen := false }, [Output.closeAI])

/-- Process a list of events in arrival order, collecting all sent
messages. -/
def runFrom (st : SessionState) : List Event → SessionState × List Output
  | [] => (st, [])
  | ev :: rest =>
    let this := step st ev
    let tail := runFrom this.1 rest
    (tail.1, this.2 ++ tail.2)

/-- Number of steps of a run at which the AI socket transitions from open
to closed (an effective close; further `aiWs.close()` calls are no-ops). -/
def effectiveAiCloses (st : SessionState) : List Event → Nat
  | [] => 0
  | ev :: rest =>
    (if st.aiOpen && !(step st ev).1.aiOpen then 1 else 0) +
      effectiveAiCloses (step st ev).1 rest

/-- Specification-level busy flag of a trace: a response is acknowledged
and incomplete iff the most recent of `response.created`/`response.done`
is `response.created`. -/
def busyAfter (b : Bool) : List Event → Bool
  | [] => b
  | ev :: rest =>
    busyAfter
      (match ev with
        | Event.aiCreated => true
        | Event.aiDone => false
        | _ => b) rest

def isCreate : Output → Bool
  | Output.responseCreate _ => true
  | _ => false

def isInstructedCreate : Output → Bool
  | Output.responseCreate (some _) => true
  | _ => false

def isMediaFrame : Output → Bool
  | Output.twilioMedia _ => true
  | Output.twilioBeep => true
  | _ => false

def isDelivery : Output → Bool
  | Output.deliverBooking _ => true
  | _ => false

/-- The example turn text of spec §8: prose followed by the `BOOKING:`
marker and the seven-field record with `emergency` false. -/
def bookingExampleText : String :=
  "Great, you are booked. BOOKING:\x7b\"name\":\"Jane Doe\",\"phone\":\"+15551234567\",\"address\":\"1 Elm St\",\"job\":\"no cooling\",\"start\":\"2025-08-12T10:00:00-05:00\",\"end\":\"2025-08-12T12:00:00-05:00\",\"notes\":\"\",\"emergency\":false\x7d"

/-- The record the §8 example text denotes: `emergency = false` and the
other fields verbatim. -/
def bookingExampleRecord : Json :=
  Json.jobj [("name", Json.jstr "Jane Doe"), ("phone", Json.jstr "+15551234567"),
    ("address", Json.jstr "1 Elm St"), ("job", Json.jstr "no cooling"),
    ("start", Json.jstr "2025-08-12T10:00:00-05:00"),
    ("end", Json.jstr "2025-08-12T12:00:00-05:00"),
    ("notes", Json.jstr ""), ("emergency", Json.jbool false)]

/-! ## Helper lemmas -/

/-- A step changes the busy flag exactly at `response.created` (set) and
`response.done` (cleared). -/
theorem step_aiBusy (st : SessionState) (ev : Event) :
    (step st ev).1.aiBusy =
      (match ev with
        | Event.aiCreated => true
        | Event.aiDone => false
        | _ => st.aiBusy) := by
  cases ev <;> simp only [step] <;> (try split) <;> rfl

theorem busyAfter_append (p q : List Event) (b : Bool) :
    busyAfter b (p ++ q) = busyAfter (busyAfter b p) q := by
  induction p generalizing b with
  | nil => rfl
  | cons ev rest ih =>
    simp only [List.cons_append, busyAfter]
    exact ih _

/-- The machine's busy flag after a run coincides with the trace-level
created-without-done recount. -/
theorem runFrom_aiBusy (tr : List Event) : ∀ st : SessionState,
    (runFrom st tr).1.aiBusy = busyAfter st.aiBusy tr := by
  induction tr with
  | nil => intro st; rfl
  | cons ev rest ih =>
    intro st
    simp only [runFrom, busyAfter, ih, step_aiBusy]

/-! ## Claim C1 — at most one response request in flight -/

/-- C1 (counterexample): the claim that at most one response-creation
request is ever in flight fails.  In the interleaving where the greeting
timer fires and then an `input_audio_buffer.committed` arrives before any
`response.created`, the session issues two `response.create` requests
although no `response.done` has occurred, because `aiBusy` is set only on
`response.created`. -/
theorem C1_counterexample :
    (runFrom initialState [Event.greetTimeout, Event.aiCommitted]).2.countP isCreate = 2 ∧
    Event.aiDone ∉ [Event.greetTimeout, Event.aiCommitted] :=
  ⟨rfl, by decide⟩

/-- C1 (amended): whenever a step of any run issues a `response.create`
request, no acknowledged-but-incomplete response exists once the event is
handled — i.e. requests are never issued between a `response.created` and
its `response.done` (while `aiBusy` is set); the invariant that fails is
only the stronger issued-to-done one refuted above. -/
theorem C1_no_create_while_acknowledged (p : List Event) (ev : Event)
    (h : ((step (runFrom initialState p).1 ev).2.countP isCreate) ≠ 0) :
    busyAfter false (p ++ [ev]) = false := by
  rw [busyAfter_append]
  have hb : (runFrom initialState p).1.aiBusy = busyAfter false p :=
    runFrom_aiBusy p initialState
  cases ev with
  | greetTimeout =>
    by_cases hbusy : (runFrom initialState p).1.aiBusy = true
    · exact absurd (by simp [step, hbusy]) h
    · simp only [busyAfter]
      rw [← hb]
      simpa using hbusy
  | aiCreated => exact absurd rfl h
  | aiTextDelta d => exact absurd rfl h
  | aiDone => rfl
  | aiCommitted =>
    by_cases hbusy : (runFrom initialState p).1.aiBusy = true
    · exact absurd (by simp [step, hbusy]) h
    · simp only [busyAfter]
      rw [← hb]
      simpa using hbusy
  | aiAudioDelta samples =>
    exfalso
    apply h
    simp only [step]
    split <;> rfl
  | aiClosed => exact absurd rfl h
  | twStart sid => exact absurd rfl h
  | twMedia payload =>
    exfalso
    apply h
    simp only [step]
    split <;> rfl
  | twStop => exact absurd rfl h
  | twClose => exact absurd rfl h

/-- C1 (witness): the amended theorem applied to the one-event run in
which the caller commit issues a request from the idle initial state. -/
theorem C1_no_create_while_acknowledged_witness :
    busyAfter false ([] ++ [Event.aiCommitted]) = false :=
  C1_no_create_while_acknowledged [] Event.aiCommitted (by decide)

/-! ## Claim C2 — queued-instruction policy on two commits while busy -/

/-- C2 (counterexample): the claim that two caller commits during an
active response result in exactly one follow-up request (carrying the
second instruction) after completion fails: after
`response.created, committed, committed`, the `response.done` handler
emits nothing at all, because each commit-while-busy executes
`pendingPrompt = null`. -/
theorem C2_counterexample :
    (step (runFrom initialState
        [Event.aiCreated, Event.aiCommitted, Event.aiCommitted]).1 Event.aiDone).2 = [] :=
  rfl

/-- C2 (amended): a caller commit arriving while a response is in flight
empties the queued-instruction slot and emits nothing (twice over for two
commits), so after the in-flight response's completion event no follow-up
request is issued at all; caller-triggered requests are dropped while
busy, not queued, and never carry an instruction. -/
theorem C2_drop_while_busy (st : SessionState) (h : st.aiBusy = true) :
    (step st Event.aiCommitted).2 = [] ∧
    (step (step st Event.aiCommitted).1 Event.aiCommitted).2 = [] ∧
    (step (step st Event.aiCommitted).1 Event.aiCommitted).1.pendingPrompt = none ∧
    (step (step (step st Event.aiCommitted).1 Event.aiCommitted).1
        Event.aiDone).2.countP isCreate = 0 := by
  refine ⟨by simp [step, h], by simp [step, h], by simp [step, h], ?_⟩
  simp only [step, h, if_true, jsTruthy]
  simp only [Bool.false_eq_true, if_false]
  split <;> rfl

/-- C2 (witness): the amended behaviour at a concrete busy state. -/
theorem C2_drop_while_busy_witness :
    (step { initialState with aiBusy := true } Event.aiCommitted).2 = [] ∧
    (step (step { initialState with aiBusy := true } Event.aiCommitted).1
        Event.aiCommitted).2 = [] ∧
    (step (step { initialState with aiBusy := true } Event.aiCommitted).1
        Event.aiCommitted).1.pendingPrompt = none ∧
    (step (step (step { initialState with aiBusy := true } Event.aiCommitted).1
        Event.aiCommitted).1 Event.aiDone).2.countP isCreate = 0 :=
  C2_drop_while_busy { initialState with aiBusy := true } rfl

/-! ## Claim C3 — teardown propagation -/

/-- C3 (counterexample): the claim that closing the AI-side connection
closes the telephony-side connection fails: the AI close handler only
logs, so after the AI socket closes the telephony socket is still open and
nothing at all is emitted. -/
theorem C3_counterexample :
    (runFrom initialState [Event.aiClosed]).1.twOpen = true ∧
    (runFrom initialState [Event.aiClosed]).2 = [] :=
  ⟨rfl, rfl⟩

/-- C3 (amended): a telephony stop event or telephony close closes the
AI-side connection; closing an already-closed AI socket is a state no-op
(not an error), and over the trace stop-then-close the AI socket is
effectively closed exactly once.  The converse direction of the original
claim (AI close closes the telephony side) is refuted above. -/
theorem C3_teardown (st st' : SessionState) (h : st'.aiOpen = false) :
    ((step st Event.twStop).1.aiOpen = false ∧ (step st Event.twClose).1.aiOpen = false) ∧
    ((step st' Event.twStop).1 = st' ∧
      (step st' Event.twClose).1 = { st' with twOpen := false }) ∧
    effectiveAiCloses initialState [Event.twStop, Event.twClose] = 1 := by
  refine ⟨⟨rfl, rfl⟩, ⟨?_, ?_⟩, rfl⟩
  · cases st'
    simp only [step]
    simp_all
  · cases st'
    simp only [step]
    simp_all

/-- C3 (witness): the amended behaviour at concrete states (the second
with its AI socket already closed). -/
theorem C3_teardown_witness :
    ((step initialState Event.twStop).1.aiOpen = false ∧
      (step initialState Event.twClose).1.aiOpen = false) ∧
    ((step { initialState with aiOpen := false } Event.twStop).1 =
        { initialState with aiOpen := false } ∧
      (step { initialState with aiOpen := false } Event.twClose).1 =
        { initialState with aiOpen := false, twOpen := false }) ∧
    effectiveAiCloses initialState [Event.twStop, Event.twClose] = 1 :=
  C3_teardown initialState { initialState with aiOpen := false } rfl

/-! ## Claim C4 — record extraction on the §8 example and on invalid input -/

/-- C4: a completed turn whose accumulated text is the §8 example yields
exactly the seven-field record with `emergency = false` (fields verbatim)
and delivers it; a completed turn whose text has no extractable record —
in particular a truncated or syntactically invalid object after the
marker, on which `extractBooking` is `none` — delivers nothing.  The step
function is total, so no input crashes the session (in the source the
`JSON.parse` failure is caught and logged). -/
theorem C4_record_extraction (st st' : SessionState)
    (h : st.lastTextChunk = bookingExampleText)
    (h2 : extractBooking st'.lastTextChunk = none) :
    extractBooking st.lastTextChunk = some bookingExampleRecord ∧
    Output.deliverBooking bookingExampleRecord ∈ (step st Event.aiDone).2 ∧
    (step st' Event.aiDone).2.countP isDelivery = 0 := by
  have hx : extractBooking bookingExampleText = some bookingExampleRecord := rfl
  refine ⟨h ▸ hx, ?_, ?_⟩
  · simp only [step, h, hx]
    split <;> simp
  · simp only [step, h2]
    split <;> simp [sendReply, isDelivery]

/-- C4 (witness): the theorem at a state holding the §8 example text and a
state holding a truncated object after the marker. -/
theorem C4_record_extraction_witness :
    extractBooking ({ initialState with
        lastTextChunk := bookingExampleText } : SessionState).lastTextChunk =
      some bookingExampleRecord ∧
    Output.deliverBooking bookingExampleRecord ∈
      (step { initialState with lastTextChunk := bookingExampleText } Event.aiDone).2 ∧
    (step { initialState with lastTextChunk := "BOOKING:\x7b\"name\":\"Jane" }
        Event.aiDone).2.countP isDelivery = 0 :=
  C4_record_extraction
    { initialState with lastTextChunk := bookingExampleText }
    { initialState with lastTextChunk := "BOOKING:\x7b\"name\":\"Jane" } rfl rfl

/-! ## Claim C5 — μ-law encoding vs the standard reference -/

/-- C5 (code bug): `linearToMuLaw` is not bit-exact against the standard
μ-law companding reference.  At linear sample `0` the source computes the
exponent-0 mantissa with shift `4` (`(exponent === 0) ? 4 : exponent + 3`)
and returns `0xF7`, while the standard reference (shift `exponent + 3` in
every segment) returns `0xFF`, the canonical μ-law encoding of silence.
The two encoders disagree on every sample whose biased magnitude lies in
segment 0. -/
theorem C5_divergence_at_zero :
    linearToMuLaw 0 = 247 ∧ muLawReference 0 = 255 ∧
    linearToMuLaw 0 ≠ muLawReference 0 := by
  exact ⟨by decide, by decide, by decide⟩

/-! ## Claim C6 — downsample-and-encode ratio and decimation -/

/-- C6: on an input of `L` linear samples the downsample-and-encode path
produces exactly `floor(L/3)` companded bytes, the `j`-th being the μ-law
encoding of kept sample `samples[3*j]` (naive decimation, no filtering). -/
theorem C6_resample_ratio (samples : List Int) :
    (downsampleAndEncode samples).length = samples.length / 3 ∧
    ∀ j, j < samples.length / 3 →
      (downsampleAndEncode samples).getD j 0 = linearToMuLaw (samples.getD (3 * j) 0) := by
  constructor
  · simp [downsampleAndEncode]
  · intro j hj
    have hb : j < (downsampleAndEncode samples).length := by
      simpa [downsampleAndEncode] using hj
    rw [List.getD_eq_getElem _ _ hb]
    simp [downsampleAndEncode]

/-- C6 (witness): the theorem at a concrete six-sample input. -/
theorem C6_resample_ratio_witness :
    (downsampleAndEncode [5, 6, 7, 8, 9, 10]).length = 2 ∧
    (downsampleAndEncode [5, 6, 7, 8, 9, 10]).getD 1 0 = linearToMuLaw 8 :=
  ⟨(C6_resample_ratio [5, 6, 7, 8, 9, 10]).1,
    (C6_resample_ratio [5, 6, 7, 8, 9, 10]).2 1 (by decide)⟩

/-! ## Claim C7 — no outbound media frame before the stream id is known -/

/-- Helper for C7: a step on any event other than the telephony `start`
preserves an unset stream id and emits no outbound media frame. -/
theorem step_no_media (st : SessionState) (ev : Event)
    (hsid : st.streamSid = none) (hev : ∀ sid, ev ≠ Event.twStart sid) :
    (step st ev).1.streamSid = none ∧
    ∀ o ∈ (step st ev).2, isMediaFrame o = false := by
  cases ev with
  | greetTimeout =>
    constructor
    · simp only [step]
      split <;> simpa using hsid
    · simp only [step]
      split <;> simp [sendReply, isMediaFrame]
  | aiCreated => exact ⟨by simp [step, hsid], by simp [step]⟩
  | aiTextDelta d => exact ⟨by simp [step, hsid], by simp [step]⟩
  | aiDone =>
    constructor
    · simp only [step]
      split <;> simp [hsid]
    · cases hx : extractBooking st.lastTextChunk <;> simp only [step, hx] <;> split <;>
        simp [sendReply, isMediaFrame]
  | aiCommitted =>
    constructor
    · simp only [step]
      split <;> simpa using hsid
    · simp only [step]
      split <;> simp [sendReply, isMediaFrame]
  | aiAudioDelta samples =>
    exact ⟨by simp [step, hsid, jsTruthy], by simp [step, hsid, jsTruthy]⟩
  | aiClosed => exact ⟨by simp [step, hsid], by simp [step]⟩
  | twStart sid => exact absurd rfl (hev sid)
  | twMedia payload =>
    constructor
    · simp only [step]
      split <;> simpa using hsid
    · simp only [step]
      split <;> simp [isMediaFrame]
  | twStop => exact ⟨by simp [step, hsid], by simp [step, isMediaFrame]⟩
  | twClose => exact ⟨by simp [step, hsid], by simp [step, isMediaFrame]⟩

/-- Helper for C7: a run containing no telephony `start` event emits no
outbound media frame. -/
theorem runFrom_no_media (tr : List Event) : ∀ st : SessionState,
    st.streamSid = none → (∀ sid, Event.twStart sid ∉ tr) →
    ∀ o ∈ (runFrom st tr).2, isMediaFrame o = false := by
  induction tr with
  | nil =>
    intro st _ _ o ho
    simp [runFrom] at ho
  | cons ev rest ih =>
    intro st hsid hstart o ho
    have hev : ∀ sid, ev ≠ Event.twStart sid := by
      intro sid he
      exact hstart sid (he ▸ List.mem_cons_self _ _)
    have hstep := step_no_media st ev hsid hev
    have hrest : ∀ sid, Event.twStart sid ∉ rest := by
      intro sid hm
      exact hstart sid (List.mem_cons_of_mem _ hm)
    simp only [runFrom, List.mem_append] at ho
    rcases ho with ho | ho
    · exact hstep.2 o ho
    · exact ih (step st ev).1 hstep.1 hrest o ho

/-- C7: an AI audio delta received while `streamSid` is unset is silently
dropped (nothing at all is emitted), and more generally a run in which the
telephony `start` event has not occurred emits no outbound media frame to
the telephony peer. -/
theorem C7_no_media_before_sid :
    (∀ (st : SessionState) (samples : List Int), st.streamSid = none →
      (step st (Event.aiAudioDelta samples)).2 = []) ∧
    ∀ tr : List Event, (∀ sid, Event.twStart sid ∉ tr) →
      ∀ o ∈ (runFrom initialState tr).2, isMediaFrame o = false := by
  constructor
  · intro st samples hsid
    simp [step, hsid, jsTruthy]
  · intro tr htr
    exact runFrom_no_media tr initialState rfl htr

/-- C7 (witness): a dropped delta at the initial state, and a start-free
run whose outputs contain no media frame. -/
theorem C7_no_media_before_sid_witness :
    (step initialState (Event.aiAudioDelta [0, 1, 2])).2 = [] ∧
    ∀ o ∈ (runFrom initialState [Event.greetTimeout, Event.aiCommitted]).2,
      isMediaFrame o = false :=
  ⟨C7_no_media_before_sid.1 initialState [0, 1, 2] rfl,
    C7_no_media_before_sid.2 [Event.greetTimeout, Event.aiCommitted]
      (by intro sid h; simp at h)⟩

/-! ## Claim C8 — the turn-text buffer is cleared unconditionally -/

/-- C8: after the `response.done` handler runs, `lastTextChunk` is empty in
every state — whether extraction succeeded, failed to parse, or found no
marker, and whether or not a queued instruction immediately starts a new
turn. -/
theorem C8_turnText_cleared (st : SessionState) :
    ((step st Event.aiDone).1).lastTextChunk = "" := by
  simp only [step]
  split <;> rfl

/-! ## Claim C9 — commit while busy empties the queued-instruction slot -/

/-- C9: a caller commit arriving while a response is in flight sets the
queued-instruction slot to empty and emits nothing, discarding any
previously queued instruction (including a queued greeting); consequently
the subsequent completion event issues no instruction-carrying follow-up
request from the slot, and the next caller-triggered request (issued when
idle) carries no instruction at all. -/
theorem C9_commit_while_busy_empties_slot (st st' : SessionState)
    (h : st.aiBusy = true) (h' : st'.aiBusy = false) :
    (step st Event.aiCommitted).1.pendingPrompt = none ∧
    (step st Event.aiCommitted).2 = [] ∧
    (step (step st Event.aiCommitted).1 Event.aiDone).2.countP isInstructedCreate = 0 ∧
    (step st' Event.aiCommitted).2 = [Output.responseCreate none] := by
  refine ⟨by simp [step, h], by simp [step, h], ?_,
    by simp [step, h', sendReply, jsTruthy]⟩
  simp only [step, h, if_true, jsTruthy]
  simp only [Bool.false_eq_true, if_false]
  split <;> rfl

/-- C9 (witness): the theorem at a busy state whose slot still holds the
queued greeting, and at the idle initial state. -/
theorem C9_commit_while_busy_empties_slot_witness :
    (step { initialState with aiBusy := true, pendingPrompt := some GREETING }
        Event.aiCommitted).1.pendingPrompt = none ∧
    (step { initialState with aiBusy := true, pendingPrompt := some GREETING }
        Event.aiCommitted).2 = [] ∧
    (step (step { initialState with aiBusy := true, pendingPrompt := some GREETING }
        Event.aiCommitted).1 Event.aiDone).2.countP isInstructedCreate = 0 ∧
    (step initialState Event.aiCommitted).2 = [Output.responseCreate none] :=
  C9_commit_while_busy_empties_slot
    { initialState with aiBusy := true, pendingPrompt := some GREETING }
    initialState rfl rfl

/-! ## Claim C10 — delivery without shape validation -/

/-- C10: whenever the completed turn's text yields any parseable JSON
object after the marker, the `response.done` handler attempts delivery
with exactly the parsed value — no shape validation of the seven booking
fields happens anywhere on the path. -/
theorem C10_delivery_without_validation (st : SessionState) (v : Json)
    (h : extractBooking st.lastTextChunk = some v) :
    Output.deliverBooking v ∈ (step st Event.aiDone).2 := by
  simp only [step, h]
  split <;> simp

/-- C10 (witness): the empty object — missing all seven booking fields —
is still delivered verbatim. -/
theorem C10_delivery_without_validation_witness :
    Output.deliverBooking (Json.jobj []) ∈
      (step { initialState with lastTextChunk := "See you soon! BOOKING: \x7b\x7d" }
        Event.aiDone).2 :=
  C10_delivery_without_validation
    { initialState with lastTextChunk := "See you soon! BOOKING: \x7b\x7d" }
    (Json.jobj []) rfl
